import Mathlib

/-!
Verification of the serverless-connect-voicemail pipeline.

Shallow embedding of the voicemail-processing core:
  * `src/aws/transcribe.js` — job submission naming and bounded polling
    (`awaitJob`, `_normalisedJobName`);
  * `src/sns.js` handler module — the `process` orchestrator, contact-id
    extraction, call-attribute parsing, phone-number formatting, and the
    notification / operator-alert publishes.

External collaborators (SNS, Transcribe, S3, CloudWatch Logs, the system
clock and timezone formatting) are modelled as an explicit environment of
outcomes; the embedded functions reproduce the control flow of the source.
-/

/-! ## transcribe.js -/

/-- The three `TranscriptionJobStatus` values the code inspects:
`IN_PROGRESS`, `COMPLETED`, `FAILED`. -/
inductive TStatus where
  | inProgress
  | completed
  | failed
deriving DecidableEq, Repr

/-- The slice of a Transcribe job-description the code reads: its status,
the transcript segments fetched from `Transcript.TranscriptFileUri`
(`results.transcripts[i].transcript`), and `FailureReason`. -/
structure TJob where
  status : TStatus
  transcripts : List String
  failureReason : String
deriving DecidableEq, Repr

/-- Constant `INITIAL_WAIT_MS = 60000` from src/aws/transcribe.js. -/
def INITIAL_WAIT_MS : Nat := 60000

/-- The `while (triesLeft > 0)` loop of `awaitJob`
(src/aws/transcribe.js:60-74).  `oracle k` is the job returned by the
`k`-th `getTranscriptionJob` call.  Returns the value of the `job`
variable after the loop together with the list of waits performed inside
the loop (each wait is `waitBetweenRetries`, performed only when the job
is still `IN_PROGRESS`). -/
def pollLoop (oracle : Nat → TJob) (waitBetweenRetries : Nat) :
    Nat → Nat → Option TJob → Option TJob × List Nat
  | 0, _, job => (job, [])
  | triesLeft + 1, k, _ =>
      let job := oracle k
      if job.status = TStatus.inProgress then
        let rest := pollLoop oracle waitBetweenRetries triesLeft (k + 1) (some job)
        (rest.1, waitBetweenRetries :: rest.2)
      else
        (some job, [])

/-- The error JavaScript would raise if the post-loop code dereferenced a
still-`null` `job` variable. -/
def nullJobError : String := "TypeError: Cannot read property of null"

/-- Embeds `exports.awaitJob` (src/aws/transcribe.js:52-92): wait
`INITIAL_WAIT_MS`, compute `waitBetweenRetries = (waitSeconds * 1000 -
INITIAL_WAIT_MS) / 6` once, run the polling loop with 6 tries, then
inspect the final job: `COMPLETED` returns the first transcript segment
(or `undefined` when there are none), `FAILED` throws
`'Transcription failure: ' + job.FailureReason`, and a still-pending job
returns `undefined`.  The result pairs the returned/thrown value with the
full list of waits performed (initial wait first). -/
def awaitJob (oracle : Nat → TJob) (waitSeconds : Nat) :
    Except String (Option String) × List Nat :=
  let waitBetweenRetries := (waitSeconds * 1000 - INITIAL_WAIT_MS) / 6
  let r := pollLoop oracle waitBetweenRetries 6 0 none
  let waits := INITIAL_WAIT_MS :: r.2
  let value : Except String (Option String) :=
    match r.1 with
    | none => Except.error nullJobError
    | some job =>
        if job.status = TStatus.completed then
          match job.transcripts with
          | t :: _ => Except.ok (some t)
          | [] => Except.ok none
        else if job.status = TStatus.failed then
          Except.error ("Error: Transcription failure: " ++ job.failureReason)
        else
          Except.ok none
  (value, waits)

/-- The character class of `/[^0-9a-zA-Z._-]/g` in `_normalisedJobName`
(src/aws/transcribe.js:125). -/
def isAllowedJobNameChar (c : Char) : Bool :=
  decide (('0' ≤ c ∧ c ≤ '9') ∨ ('a' ≤ c ∧ c ≤ 'z') ∨ ('A' ≤ c ∧ c ≤ 'Z') ∨
    c = '.' ∨ c = '_' ∨ c = '-')

/-- Embeds `_normalisedJobName` (src/aws/transcribe.js:124-126):
`jobName.replace(/[^0-9a-zA-Z._-]/g, '_')`. -/
def _normalisedJobName (jobName : String) : String :=
  ⟨jobName.data.map (fun c => if isAllowedJobNameChar c then c else '_')⟩

/-! ## sns.js handler module: pure helpers -/

/-- JavaScript values as they occur in parsed call attributes: `undefined`
(an absent attribute), booleans, or strings. -/
inductive JsVal where
  | undef
  | bool (b : Bool)
  | str (s : String)
deriving DecidableEq, Repr

/-- JavaScript truthiness for the values of `JsVal` (`undefined` and `''`
and `false` are falsy). -/
def truthy : JsVal → Bool
  | JsVal.undef => false
  | JsVal.bool b => b
  | JsVal.str s => s ≠ ""

/-- Template-literal rendering (`\x24\x7bv\x7d`) of a `JsVal`. -/
def jsToString : JsVal → String
  | JsVal.undef => "undefined"
  | JsVal.bool b => if b then "true" else "false"
  | JsVal.str s => s

/-- Leftmost match of `/\+61(\d+)/`: scan for the first `'+'` followed by
`"61"` and at least one digit; the capture is the maximal digit run after
the `"61"`. -/
def findPlus61 : List Char → Option (List Char)
  | [] => none
  | c :: rest =>
      if c = '+' then
        match rest with
        | '6' :: '1' :: tl =>
            let ds := tl.takeWhile Char.isDigit
            if ds.isEmpty then findPlus61 rest else some ds
        | _ => findPlus61 rest
      else findPlus61 rest

/-- Check that every character is a `\d` digit, shared by the two
grouping patterns. -/
def allDigits (l : List Char) : Bool := l.all Char.isDigit

/-- Regroup a ten-character list as `a`-`b`-rest joined by spaces, as the
capture groups of the grouping regexes do. -/
def groupSplit (l : List Char) (a b : Nat) : List Char :=
  l.take a ++ ' ' :: ((l.drop a).take b ++ ' ' :: (l.drop a).drop b)

/-- Does the list start with `"04"`? (`^(04\d\x7b2\x7d)` head of the
mobile pattern). -/
def startsWith04 : List Char → Bool
  | '0' :: '4' :: _ => true
  | _ => false

/-- Embeds the mobile-number branch
`formattedNumber.match(/^(04\d\x7b2\x7d)(\d\x7b3\x7d)(\d\x7b3\x7d)$/)`
followed by the space-joined regrouping: exactly ten digits starting
`04`, split 4-3-3. -/
def splitMobile (l : List Char) : Option (List Char) :=
  if l.length = 10 ∧ allDigits l ∧ startsWith04 l then some (groupSplit l 4 3)
  else none

/-- Embeds the national-number branch
`formattedNumber.match(/^(\d\x7b2\x7d)(\d\x7b4\x7d)(\d\x7b4\x7d)$/)`
followed by the space-joined regrouping: exactly ten digits, split
2-4-4. -/
def splitNational (l : List Char) : Option (List Char) :=
  if l.length = 10 ∧ allDigits l then some (groupSplit l 2 4)
  else none

/-- Embeds `formatPhoneNumber` (sns.js handler module): replace a `+61`
match by `0` plus the captured digits, then regroup a mobile (`04…`)
number 4-3-3 or any other ten-digit number 2-4-4, with spaces; otherwise
return the value unchanged. -/
def formatPhoneNumber (phoneNumber : String) : String :=
  let formattedNumber :=
    match findPlus61 phoneNumber.data with
    | some ds => '0' :: ds
    | none => phoneNumber.data
  match splitMobile formattedNumber with
  | some r => ⟨r⟩
  | none =>
      match splitNational formattedNumber with
      | some r => ⟨r⟩
      | none => ⟨formattedNumber⟩

/-- The character class `[a-zA-Z0-9-]` of the contact-id capture group. -/
def isIdChar (c : Char) : Bool := c.isAlphanum || c = '-'

/-- Does the regex tail `([a-zA-Z0-9-]+)_.*` match directly after a
slash, i.e. on `l`?  With backtracking only the maximal id-character run
can be the capture (shrinking it leaves an id character, never `'_'`,
next), so the tail matches exactly when that run is nonempty and the
character after it is `'_'`; the capture is the run. -/
def eligibleAt (l : List Char) : Option (List Char) :=
  let run := l.takeWhile isIdChar
  if run.isEmpty then none
  else
    match l.drop run.length with
    | c :: _ => if c = '_' then some run else none
    | [] => none

/-- A JavaScript regex line terminator, which the dot of
`/.*\/([a-zA-Z0-9-]+)_.*/` does not match: newline, carriage return,
line separator (U+2028), paragraph separator (U+2029). -/
def isLineTerminator (c : Char) : Bool :=
  decide (c = '\n' ∨ c = '\r' ∨ c.toNat = 8232 ∨ c.toNat = 8233)

/-- Engine of `/.*\/([a-zA-Z0-9-]+)_.*/.exec`: the dot does not cross
line terminators, so a match attempt starting inside one line is
confined to that line; `exec` takes the leftmost successful start
position, while within a line the greedy `.*` backtracks from the right
and commits to the rightmost eligible slash.  (The capture group and
the `'_'` never contain terminators, and the trailing `.*` may be
empty, so a slash's eligibility is `eligibleAt` of its full tail.)
First component: the capture from the first line of the input, i.e. the
rightmost eligible slash before any terminator; second component: the
result for the remaining lines. -/
def scanKeyPair : List Char → Option (List Char) × Option (List Char)
  | [] => (none, none)
  | c :: rest =>
      let p := scanKeyPair rest
      if isLineTerminator c then
        (none, match p.1 with
               | some r => some r
               | none => p.2)
      else
        (match p.1 with
         | some r => some r
         | none => if c = '/' then eligibleAt rest else none,
         p.2)

/-- Result of `/.*\/([a-zA-Z0-9-]+)_.*/.exec`: the capture from the
first line containing an eligible slash; within that line the rightmost
eligible slash wins. -/
def scanKey (l : List Char) : Option (List Char) :=
  match scanKeyPair l with
  | (some r, _) => some r
  | (none, after) => after

/-- Embeds `contactIdFromObjectKey` (sns.js handler module):
`/.*\/([a-zA-Z0-9-]+)_.*/.exec(objectKey)`; `none` models the thrown
`TypeError('Unexpected objectKey format')`. -/
def contactIdFromObjectKey (objectKey : String) : Option String :=
  (scanKey objectKey.data).map (fun l => ⟨l⟩)

/-! ## sns.js handler module: the `process` orchestrator

Thrown JavaScript errors are modelled by their template-literal rendering
(constructor name, colon, message), which is exactly the string the
alert-publish interpolates. -/

/-- The two SNS topics the handler code can publish to: the environment
variables `NOTIFICATION_TOPIC` and `AGENT_LOGIN_TOPIC`. -/
inductive Topic where
  | notification
  | agentLogin
deriving DecidableEq, Repr

/-- One attempted `sns.publish` call: target topic, optional subject,
message body. -/
structure Publish where
  topic : Topic
  subject : Option String
  message : String
deriving DecidableEq, Repr

/-- The success result `\x7bsuccess: true\x7d` returned by `process`. -/
structure PResult where
  success : Bool
deriving DecidableEq, Repr

deriving instance DecidableEq for Except

/-- Observable outcome of one `process` invocation: the returned value or
thrown error, the `sns.publish` calls attempted in order, whether
`startTranscriptionJob` was reached, whether `getSignedUrl` was reached,
and the errors swallowed into `console` logging. -/
structure ProcOut where
  result : Except String PResult
  publishes : List Publish
  transcribeStarted : Bool
  presignRequested : Bool
  logs : List String
deriving DecidableEq, Repr

/-- The S3 details of `event.Records[0]` that `getS3ObjectInfo` reads:
bucket name, event time, and the URL-encoded object key. -/
structure S3EventRecord where
  bucketName : String
  eventTime : String
  rawObjectKey : String
deriving DecidableEq, Repr

/-- The voicemail record assembled by `getS3ObjectInfo`. -/
structure VoicemailInfo where
  bucketName : String
  creationDate : String
  objectKey : String
  objectUrl : String
  consoleUrl : String
deriving DecidableEq, Repr

/-- Value of a hexadecimal digit, as used in percent-escapes. -/
def hexVal (c : Char) : Option Nat :=
  let n := c.toNat
  if 48 ≤ n ∧ n ≤ 57 then some (n - 48)
  else if 97 ≤ n ∧ n ≤ 102 then some (n - 87)
  else if 65 ≤ n ∧ n ≤ 70 then some (n - 55)
  else none

/-- Percent-escape decoding for `decodeURIComponent`, modelled for
single-byte escapes; `none` models the thrown `URIError`. -/
def percentDecode : List Char → Option (List Char)
  | [] => some []
  | '%' :: rest =>
      match rest with
      | h1 :: h2 :: tl =>
          match hexVal h1, hexVal h2 with
          | some a, some b =>
              match percentDecode tl with
              | some ds => some (Char.ofNat (16 * a + b) :: ds)
              | none => none
          | _, _ => none
      | _ => none
  | c :: rest =>
      match percentDecode rest with
      | some ds => some (c :: ds)
      | none => none

/-- Replacement `key.replace(/\+/g, ' ')` performed before decoding. -/
def plusToSpace (s : String) : String :=
  ⟨s.data.map (fun c => if c = '+' then ' ' else c)⟩

/-- Embeds `getS3ObjectInfo` (sns.js handler module): decode the object
key and build the record with bucket, creation date and derived URLs. -/
def getS3ObjectInfo (r : S3EventRecord) : Except String VoicemailInfo :=
  let urlEncodedObjectKey := plusToSpace r.rawObjectKey
  match percentDecode urlEncodedObjectKey.data with
  | none => Except.error "URIError: URI malformed"
  | some ks =>
      let objectKey : String := ⟨ks⟩
      Except.ok
        { bucketName := r.bucketName
          creationDate := r.eventTime
          objectKey := objectKey
          objectUrl := "https://" ++ r.bucketName ++ ".s3.amazonaws.com/" ++ objectKey
          consoleUrl :=
            "https://s3.console.aws.amazon.com/s3/object/" ++ r.bucketName ++ "/" ++ objectKey }

/-- Embeds `formatAttribute`: reformat `callingNumber` values, pass every
other key through. -/
def formatAttribute (key : String) (value : JsVal) : JsVal :=
  if key = "callingNumber" then
    match value with
    | JsVal.str s => JsVal.str (formatPhoneNumber s)
    | v => v
  else value

/-- Embeds `parseCallAttributes`: each log event contributes its
`Parameters` key/value pair, transformed by `formatAttribute`.  The log
events arrive already parsed as key/value pairs. -/
def parseCallAttributes (events : List (String × JsVal)) : List (String × JsVal) :=
  events.map (fun kv => (kv.1, formatAttribute kv.1 kv.2))

/-- Attribute lookup in the enriched record: repeated JavaScript object
assignment is last-write-wins; a missing key reads as `undefined`. -/
def getAttr (attrs : List (String × JsVal)) (k : String) : JsVal :=
  match attrs.reverse.find? (fun kv => kv.1 = k) with
  | some kv => kv.2
  | none => JsVal.undef

/-- Embeds `notificationSubject`: a leading-space purpose inside square
brackets when the purpose is truthy, empty brackets otherwise. -/
def notificationSubject (purpose callingNumber : JsVal) : String :=
  let purposeString := if truthy purpose then " " ++ jsToString purpose else ""
  "[" ++ purposeString ++ "] Voice-mail from " ++ jsToString callingNumber

/-- Rendering of the possibly-`undefined` transcript inside the message
template. -/
def optStr : Option String → String
  | none => "undefined"
  | some s => s

/-- Embeds the `notificationMessage` template (the transcript is framed
by eleven-character rules of equals signs and the message ends with an
eighty-character one, written here with hex escapes).  The two
luxon-formatted dates depend on the configured timezone and the current
clock and are supplied by the environment. -/
def notificationMessage (callingNumber purpose : JsVal) (creationDate : String)
    (transcript : Option String) (preSignedUrl expiryDate consoleUrl : String) : String :=
  "\nCaller: " ++ jsToString callingNumber ++
  "\nCalled at: " ++ creationDate ++
  "\nPurpose: " ++ jsToString purpose ++
  "\n\nTranscript:\n\x3d\x3d\x3d\x3d\x3d\x3d\x3d\x3d\x3d\x3d\x3d\n" ++ optStr transcript ++
  "\n\x3d\x3d\x3d\x3d\x3d\x3d\x3d\x3d\x3d\x3d\x3d\n\nDownload (valid until " ++ expiryDate ++ "): " ++ preSignedUrl ++
  "\n\n-\n\nDownload (requires log-in): " ++ consoleUrl ++
  "\n\n\x3d\x3d\x3d\x3d\x3d\x3d\x3d\x3d\x3d\x3d\x3d\x3d\x3d\x3d\x3d\x3d\x3d\x3d\x3d\x3d\x3d\x3d\x3d\x3d\x3d\x3d\x3d\x3d\x3d\x3d\x3d\x3d\x3d\x3d\x3d\x3d\x3d\x3d\x3d\x3d\x3d\x3d\x3d\x3d\x3d\x3d\x3d\x3d\x3d\x3d\x3d\x3d\x3d\x3d\x3d\x3d\x3d\x3d\x3d\x3d\x3d\x3d\x3d\x3d\x3d\x3d\x3d\x3d\x3d\x3d\x3d\x3d\x3d\x3d\x3d\x3d\x3d\x3d\x3d\x3d\n"

/-- Embeds `sns.publish` (src/aws/sns.js:16-31): an empty message throws
`TypeError('Need a non-empty message')` before any request; otherwise
the outcome is whatever the SNS collaborator does. -/
def snsPublish (outcome : Except String Unit) (p : Publish) : Except String Unit :=
  if p.message = "" then Except.error "TypeError: Need a non-empty message"
  else outcome

/-- The publish sent by `agent.sendLoginEvent` for `process`:
`JSON.stringify(\x7bevent: 'VOICEMAIL_PROCESSED'\x7d)` on the agent-login
topic, no subject. -/
def agentLoginPublish : Publish :=
  { topic := Topic.agentLogin
    subject := none
    message := "\x7b\x22event\x22:\x22VOICEMAIL_PROCESSED\x22\x7d" }

/-- The operator-alert publish built in the `catch` block of `process`:
note its `topicArn` is `NOTIFICATION_TOPIC`, the same topic used for the
end-user notification. -/
def alertPublishFor (err : String) : Publish :=
  { topic := Topic.notification
    subject := some "Voicemail processing failure"
    message := "Voicemail processing encountered an error:\n        " ++ err }

/-- Outcomes of every collaborator interaction one `process` invocation
can perform, fixed up front: the result of the agent-login publish, the
parsed log events, the `startTranscriptionJob` outcome, the
`getTranscriptionJob` status oracle, the signed-URL outcome, the two
luxon-rendered dates, and the outcomes of the notification and alert
publishes. -/
structure Env where
  sendLoginEvent : Except String Unit
  logEvents : List (String × JsVal)
  startJob : Except String String
  oracle : Nat → TJob
  presign : Except String String
  formattedCreationDate : String
  formattedExpiryDate : String
  notifyPublish : Except String Unit
  alertPublish : Except String Unit

/-- Constant `TRANSCRIBE_WAIT_SECONDS = 240` from the handler module. -/
def TRANSCRIBE_WAIT_SECONDS : Nat := 240

/-- Embeds `transcribeRecording`: submit the job, then await it with the
240-second budget. -/
def transcribeRecording (env : Env) : Except String (Option String) :=
  match env.startJob with
  | Except.error e => Except.error e
  | Except.ok _jobName => (awaitJob env.oracle TRANSCRIBE_WAIT_SECONDS).1

/-- The end-user notification publish built by `sendNotification`. -/
def notificationPublishFor (info : VoicemailInfo) (attrs : List (String × JsVal))
    (transcript : Option String) (preSignedUrl : String) (env : Env) : Publish :=
  { topic := Topic.notification
    subject := some (notificationSubject (getAttr attrs "purpose") (getAttr attrs "callingNumber"))
    message := notificationMessage (getAttr attrs "callingNumber") (getAttr attrs "purpose")
        env.formattedCreationDate transcript preSignedUrl env.formattedExpiryDate
        info.consoleUrl }

/-- The `try` body of `process` (sns.js handler module lines 69-84):
extract object info, derive the contact id, enrich with call attributes,
apply the skip rule, transcribe, pre-sign, notify. -/
def mainPipeline (ev : S3EventRecord) (env : Env) : ProcOut :=
  match getS3ObjectInfo ev with
  | Except.error e =>
      { result := Except.error e, publishes := [], transcribeStarted := false
        presignRequested := false, logs := [] }
  | Except.ok info =>
      match contactIdFromObjectKey info.objectKey with
      | none =>
          { result := Except.error "TypeError: Unexpected objectKey format", publishes := []
            transcribeStarted := false, presignRequested := false, logs := [] }
      | some _contactId =>
          let attrs := parseCallAttributes env.logEvents
          if truthy (getAttr attrs "voicemail") = false then
            { result := Except.ok { success := true }, publishes := []
              transcribeStarted := false, presignRequested := false, logs := [] }
          else
            match transcribeRecording env with
            | Except.error e =>
                { result := Except.error e, publishes := [], transcribeStarted := true
                  presignRequested := false, logs := [] }
            | Except.ok transcript =>
                match env.presign with
                | Except.error e =>
                    { result := Except.error e, publishes := [], transcribeStarted := true
                      presignRequested := true, logs := [] }
                | Except.ok url =>
                    let pub := notificationPublishFor info attrs transcript url env
                    match snsPublish env.notifyPublish pub with
                    | Except.error e =>
                        { result := Except.error e, publishes := [pub]
                          transcribeStarted := true, presignRequested := true, logs := [] }
                    | Except.ok _ =>
                        { result := Except.ok { success := true }, publishes := [pub]
                          transcribeStarted := true, presignRequested := true, logs := [] }

/-- The `catch` block of `process` (sns.js handler module lines 85-94)
wrapped around the `try` outcome `m`: on success pass the result
through; on error log it, publish the operator alert — whose `topicArn`
is `NOTIFICATION_TOPIC`, the same topic used for the end-user
notification — and re-throw.  The alert publish is not guarded: when it
rejects, ITS error becomes the result instead of the original one.  The
agent-login publish attempt is prepended to the publish trace here, as
it happens before the `try`. -/
def errorBoundary (alertOutcome : Except String Unit) (m : ProcOut) : ProcOut :=
  match m.result with
  | Except.ok r =>
      { result := Except.ok r
        publishes := agentLoginPublish :: m.publishes
        transcribeStarted := m.transcribeStarted
        presignRequested := m.presignRequested
        logs := m.logs }
  | Except.error e =>
      let alert := alertPublishFor e
      match snsPublish alertOutcome alert with
      | Except.ok _ =>
          { result := Except.error e
            publishes := agentLoginPublish :: (m.publishes ++ [alert])
            transcribeStarted := m.transcribeStarted
            presignRequested := m.presignRequested
            logs := m.logs ++ [e] }
      | Except.error e2 =>
          { result := Except.error e2
            publishes := agentLoginPublish :: (m.publishes ++ [alert])
            transcribeStarted := m.transcribeStarted
            presignRequested := m.presignRequested
            logs := m.logs ++ [e] }

/-- The `console.log(err)` of the swallowed agent-login failure
(sns.js handler module lines 60-66). -/
def loginAttemptLogs (outcome : Except String Unit) : List String :=
  match snsPublish outcome agentLoginPublish with
  | Except.error e => [e]
  | Except.ok _ => []

/-- Embeds `exports.process` (sns.js handler module lines 57-95): the
best-effort agent-availability publish whose error is logged and
swallowed, then the `try` pipeline inside the `catch` error boundary. -/
def process (ev : S3EventRecord) (env : Env) : ProcOut :=
  let b := errorBoundary env.alertPublish (mainPipeline ev env)
  { b with logs := loginAttemptLogs env.sendLoginEvent ++ b.logs }

/-! ## Concrete jobs, events and environments used as witnesses -/

/-- A job still `IN_PROGRESS`. -/
def pendingJob : TJob :=
  { status := TStatus.inProgress, transcripts := [], failureReason := "" }

/-- A `COMPLETED` job whose fetched document holds one transcript. -/
def completedJob (t : String) : TJob :=
  { status := TStatus.completed, transcripts := [t], failureReason := "" }

/-- A `FAILED` job with the given `FailureReason`. -/
def failedJob (r : String) : TJob :=
  { status := TStatus.failed, transcripts := [], failureReason := r }

/-- A triggering S3 event for a voicemail recording object. -/
def ev0 : S3EventRecord :=
  { bucketName := "b"
    eventTime := "2018-06-19T07:02:00.000Z"
    rawObjectKey := "calls/abc-123_20180619T07%3A02_UTC.wav" }

/-- The happy-path environment: agent signal succeeds, logs carry
voicemail attributes, transcription completes with "hello", signing and
both publishes succeed. -/
def envBase : Env :=
  { sendLoginEvent := Except.ok ()
    logEvents := [("voicemail", JsVal.str "true"),
                  ("callingNumber", JsVal.str "+61412345678"),
                  ("purpose", JsVal.str "billing")]
    startJob := Except.ok "abc-123_20180619T07_02_UTC_1529391720000"
    oracle := fun _ => completedJob "hello"
    presign := Except.ok "https://signed/url"
    formattedCreationDate := "Tue Jun 19, 3:02 PM GMT+8"
    formattedExpiryDate := "Tue Jun 26, 3:02 PM GMT+8"
    notifyPublish := Except.ok ()
    alertPublish := Except.ok () }

/-- Environment whose transcription job reports `FAILED`. -/
def envFail : Env :=
  { envBase with oracle := fun _ => failedJob "Unsupported media format" }

/-- Environment whose log search finds no attributes at all. -/
def envSkip : Env := { envBase with logEvents := [] }

/-- Environment where the transcription job fails and the alert publish
itself also fails. -/
def envMask : Env :=
  { envFail with alertPublish := Except.error "Error: SNS publish failed" }

/-- The voicemail record `getS3ObjectInfo` builds from `ev0`. -/
def info0 : VoicemailInfo :=
  { bucketName := "b"
    creationDate := "2018-06-19T07:02:00.000Z"
    objectKey := "calls/abc-123_20180619T07:02_UTC.wav"
    objectUrl := "https://b.s3.amazonaws.com/calls/abc-123_20180619T07:02_UTC.wav"
    consoleUrl :=
      "https://s3.console.aws.amazon.com/s3/object/b/calls/abc-123_20180619T07:02_UTC.wav" }

/-! ## Polling-loop lemmas -/

theorem pollLoop_zero (oracle : Nat → TJob) (wbr k : Nat) (j : Option TJob) :
    pollLoop oracle wbr 0 k j = (j, []) := rfl

theorem pollLoop_succ (oracle : Nat → TJob) (wbr t k : Nat) (j : Option TJob) :
    pollLoop oracle wbr (t + 1) k j =
      (if (oracle k).status = TStatus.inProgress then
        ((pollLoop oracle wbr t (k + 1) (some (oracle k))).1,
          wbr :: (pollLoop oracle wbr t (k + 1) (some (oracle k))).2)
      else (some (oracle k), [])) := by
  rw [pollLoop]

/-- Under a fully-pending oracle the loop performs exactly one
`waitBetweenRetries` wait per remaining try. -/
theorem pollLoop_pending_waits (oracle : Nat → TJob) (wbr : Nat)
    (h : ∀ k, (oracle k).status = TStatus.inProgress) :
    ∀ t k j, (pollLoop oracle wbr t k j).2 = List.replicate t wbr := by
  intro t
  induction t with
  | zero => intro k j; rfl
  | succ t ih =>
      intro k j
      rw [pollLoop_succ, if_pos (h k)]
      simp [ih, List.replicate_succ]

/-- Under a fully-pending oracle the loop exhausts all tries and leaves
the last checked (still pending) job in the `job` variable. -/
theorem pollLoop_pending_job (oracle : Nat → TJob) (wbr : Nat)
    (h : ∀ k, (oracle k).status = TStatus.inProgress) :
    ∀ t k j, t ≠ 0 →
      (pollLoop oracle wbr t k j).1 = some (oracle (k + (t - 1))) := by
  intro t
  induction t with
  | zero => intro k j hk; exact absurd rfl hk
  | succ t ih =>
      intro k j _
      rw [pollLoop_succ, if_pos (h k)]
      cases t with
      | zero => simp [pollLoop_zero]
      | succ t' =>
          have h2 := ih (k + 1) (some (oracle k)) (Nat.succ_ne_zero t')
          have hidx : k + 1 + (t' + 1 - 1) = k + (t' + 1 + 1 - 1) := by omega
          rw [hidx] at h2
          simp only [h2]

/-- When the very first status check reports a non-pending job the loop
breaks immediately without waiting. -/
theorem pollLoop_first_break (oracle : Nat → TJob) (wbr t k : Nat) (j : Option TJob)
    (h : (oracle k).status ≠ TStatus.inProgress) :
    pollLoop oracle wbr (t + 1) k j = (some (oracle k), []) := by
  rw [pollLoop_succ, if_neg h]

/-- With a positive try counter the loop always performs at least one
status check, so the `job` variable is set after the loop for every
oracle. -/
theorem pollLoop_isSome (oracle : Nat → TJob) (wbr : Nat) :
    ∀ t k j, t ≠ 0 → ((pollLoop oracle wbr t k j).1).isSome = true := by
  intro t
  induction t with
  | zero => intro k j hk; exact absurd rfl hk
  | succ t ih =>
      intro k j _
      rw [pollLoop_succ]
      by_cases hp : (oracle k).status = TStatus.inProgress
      · rw [if_pos hp]
        cases t with
        | zero => rfl
        | succ t' => exact ih (k + 1) (some (oracle k)) (Nat.succ_ne_zero t')
      · rw [if_neg hp]
        rfl

/-! ## Projections of `awaitJob` -/

theorem awaitJob_waits (oracle : Nat → TJob) (w : Nat) :
    (awaitJob oracle w).2 =
      INITIAL_WAIT_MS :: (pollLoop oracle ((w * 1000 - INITIAL_WAIT_MS) / 6) 6 0 none).2 := rfl

theorem awaitJob_value (oracle : Nat → TJob) (w : Nat) :
    (awaitJob oracle w).1 =
      (match (pollLoop oracle ((w * 1000 - INITIAL_WAIT_MS) / 6) 6 0 none).1 with
       | none => Except.error nullJobError
       | some job =>
           if job.status = TStatus.completed then
             match job.transcripts with
             | t :: _ => Except.ok (some t)
             | [] => Except.ok none
           else if job.status = TStatus.failed then
             Except.error ("Error: Transcription failure: " ++ job.failureReason)
           else
             Except.ok none) := rfl

/-! ## Claim C3 -/

/-- C3: in `awaitJob` with a 240-second budget, a 60000 ms initial wait
and 6 remaining checks, every wait performed after a status check equals
the constant `(240000 - 60000) / 6` ms computed once before the loop,
and on a fully-pending run the sum of all waits performed (initial wait
plus per-check waits) is at most the 240000 ms budget. -/
theorem awaitJob_budget_spec (oracle : Nat → TJob)
    (h : ∀ k, (oracle k).status = TStatus.inProgress) :
    (awaitJob oracle 240).2 =
        INITIAL_WAIT_MS :: List.replicate 6 ((240 * 1000 - INITIAL_WAIT_MS) / 6) ∧
      ((awaitJob oracle 240).2).sum ≤ 240 * 1000 := by
  have hw : (awaitJob oracle 240).2 =
      INITIAL_WAIT_MS :: List.replicate 6 ((240 * 1000 - INITIAL_WAIT_MS) / 6) := by
    rw [awaitJob_waits, pollLoop_pending_waits oracle _ h 6 0 none]
  refine ⟨hw, ?_⟩
  rw [hw]
  decide

/-- Witness for C3: a concrete oracle that always reports the job still
in progress. -/
theorem awaitJob_budget_spec_witness :
    (awaitJob (fun _ => pendingJob) 240).2 =
        INITIAL_WAIT_MS :: List.replicate 6 ((240 * 1000 - INITIAL_WAIT_MS) / 6) ∧
      ((awaitJob (fun _ => pendingJob) 240).2).sum ≤ 240 * 1000 :=
  awaitJob_budget_spec (fun _ => pendingJob) (fun _ => rfl)

/-! ## Claim C4 -/

/-- C4: when every status check reports the job still pending, `awaitJob`
with the 240-second budget returns no transcript (the `undefined` result)
and raises no error. -/
theorem awaitJob_exhausted_pending (oracle : Nat → TJob)
    (h : ∀ k, (oracle k).status = TStatus.inProgress) :
    (awaitJob oracle 240).1 = Except.ok none := by
  have hj := pollLoop_pending_job oracle ((240 * 1000 - INITIAL_WAIT_MS) / 6) h 6 0 none
    (by decide)
  rw [awaitJob_value, hj]
  simp [h]

/-- Witness for C4: the fully-pending concrete oracle. -/
theorem awaitJob_exhausted_pending_witness :
    (awaitJob (fun _ => pendingJob) 240).1 = Except.ok none :=
  awaitJob_exhausted_pending (fun _ => pendingJob) (fun _ => rfl)

/-! ## Claim C10 -/

/-- C10: the polling loop starts with 6 > 0 tries, so at least one status
check is performed for every oracle and every budget, the `job` variable
is set after the loop, and the post-loop status inspection never takes
the null-dereference branch. -/
theorem awaitJob_no_null_job (oracle : Nat → TJob) (waitSeconds : Nat) :
    ((pollLoop oracle ((waitSeconds * 1000 - INITIAL_WAIT_MS) / 6) 6 0 none).1).isSome = true ∧
      (awaitJob oracle waitSeconds).1 ≠ Except.error nullJobError := by
  refine ⟨pollLoop_isSome oracle _ 6 0 none (by decide), ?_⟩
  rw [awaitJob_value]
  rcases ho : (pollLoop oracle ((waitSeconds * 1000 - INITIAL_WAIT_MS) / 6) 6 0 none).1
    with _ | job
  · have hs := pollLoop_isSome oracle ((waitSeconds * 1000 - INITIAL_WAIT_MS) / 6) 6 0 none
      (by decide)
    rw [ho] at hs
    simp at hs
  · by_cases hc : job.status = TStatus.completed
    · rcases ht : job.transcripts with _ | ⟨t, ts⟩ <;> simp [hc, ht]
    · by_cases hf : job.status = TStatus.failed
      · simp only [hc, hf, if_true, if_false]
        intro heq
        have hd : ("Error: Transcription failure: " ++ job.failureReason).data
            = nullJobError.data := congrArg String.data (Except.error.inj heq)
        rw [String.data_append] at hd
        have hhead := congrArg (fun l => l.head?) hd
        simp [nullJobError] at hhead
      · simp [hc, hf]

/-! ## Claim C9 -/

/-- C9: job-name sanitization maps every character outside
`[0-9A-Za-z._-]` to `'_'` and leaves characters inside the set unchanged,
and it is idempotent. -/
theorem normalisedJobName_spec :
    (∀ s : String, (_normalisedJobName s).data = s.data.map (fun c =>
        if ('0' ≤ c ∧ c ≤ '9') ∨ ('a' ≤ c ∧ c ≤ 'z') ∨ ('A' ≤ c ∧ c ≤ 'Z') ∨
            c = '.' ∨ c = '_' ∨ c = '-' then c else '_')) ∧
      ∀ s : String, _normalisedJobName (_normalisedJobName s) = _normalisedJobName s := by
  constructor
  · intro s
    show s.data.map _ = s.data.map _
    apply List.map_congr_left
    intro c _
    by_cases h : ('0' ≤ c ∧ c ≤ '9') ∨ ('a' ≤ c ∧ c ≤ 'z') ∨ ('A' ≤ c ∧ c ≤ 'Z') ∨
        c = '.' ∨ c = '_' ∨ c = '-'
    · simp [isAllowedJobNameChar, h]
    · simp [isAllowedJobNameChar, h]
  · intro s
    apply String.ext
    show (s.data.map (fun c => if isAllowedJobNameChar c then c else '_')).map
        (fun c => if isAllowedJobNameChar c then c else '_') =
      s.data.map (fun c => if isAllowedJobNameChar c then c else '_')
    rw [List.map_map]
    apply List.map_congr_left
    intro c _
    by_cases h : isAllowedJobNameChar c
    · simp [Function.comp, h]
    · simp [Function.comp, h]

/-! ## Claim C6 -/

/-- C6 counterexample: a bare ten-digit number contains no `+61` match,
yet it does not pass through unchanged — the grouping regexes still
reformat it. -/
theorem formatPhoneNumber_passthrough_counterexample :
    findPlus61 ("0412345678" : String).data = none ∧
      formatPhoneNumber "0412345678" ≠ "0412345678" := by
  constructor
  · rfl
  · decide

/-- C6 (amended): the two documented examples hold, and an input that
neither contains a `+61`-plus-digits match nor consists of exactly ten
digits passes through unchanged (a bare ten-digit number is still
regrouped). -/
theorem formatPhoneNumber_spec :
    formatPhoneNumber "+61412345678" = "0412 345 678" ∧
      formatPhoneNumber "+61812341234" = "08 1234 1234" ∧
      ∀ s : String, findPlus61 s.data = none →
        ¬(s.data.length = 10 ∧ allDigits s.data = true) →
        formatPhoneNumber s = s := by
  refine ⟨by decide, by decide, ?_⟩
  intro s h1 h2
  have hm : splitMobile s.data = none := by
    unfold splitMobile
    rw [if_neg]
    intro hc
    exact h2 ⟨hc.1, hc.2.1⟩
  have hn : splitNational s.data = none := by
    unfold splitNational
    rw [if_neg]
    intro hc
    exact h2 ⟨hc.1, hc.2⟩
  simp only [formatPhoneNumber, h1, hm, hn]

/-- Witness for C6: a non-numeric string is returned unchanged. -/
theorem formatPhoneNumber_spec_witness :
    findPlus61 ("abc" : String).data = none ∧ formatPhoneNumber "abc" = "abc" :=
  ⟨by decide, formatPhoneNumber_spec.2.2 "abc" (by decide) (by decide)⟩

/-! ## Claim C5 -/

/-- A list without a slash has no match for the regex in any of its
lines. -/
theorem scanKeyPair_no_slash : ∀ l : List Char, '/' ∉ l → scanKeyPair l = (none, none) := by
  intro l
  induction l with
  | nil => intro _; rfl
  | cons c rest ih =>
      intro h
      have hc : c ≠ '/' := fun e => h (e ▸ List.mem_cons_self c rest)
      have hr : scanKeyPair rest = (none, none) := ih (fun m => h (List.mem_cons_of_mem c m))
      simp only [scanKeyPair, hr]
      by_cases ht : isLineTerminator c
      · simp [ht]
      · simp [ht, hc]

/-- Taking id characters stops exactly at the first non-id character. -/
theorem takeWhile_all_append (p : Char → Bool) :
    ∀ (l₁ : List Char) (x : Char) (l₂ : List Char), l₁.all p = true → p x = false →
      (l₁ ++ x :: l₂).takeWhile p = l₁ := by
  intro l₁
  induction l₁ with
  | nil =>
      intro x l₂ _ hx
      simp [List.takeWhile, hx]
  | cons a l₁ ih =>
      intro x l₂ h hx
      simp only [List.all_cons, Bool.and_eq_true] at h
      simp [List.takeWhile, h.1, ih x l₂ h.2 hx]

/-- A list is its id-character run followed by what remains after it. -/
theorem takeWhile_append_drop (p : Char → Bool) :
    ∀ l : List Char, l.takeWhile p ++ l.drop (l.takeWhile p).length = l := by
  intro l
  induction l with
  | nil => rfl
  | cons a l ih =>
      by_cases hpa : p a
      · simp [List.takeWhile, hpa, ih]
      · simp [List.takeWhile, hpa]

/-- Every character of the taken run satisfies the predicate. -/
theorem all_takeWhile (p : Char → Bool) :
    ∀ l : List Char, (l.takeWhile p).all p = true := by
  intro l
  induction l with
  | nil => rfl
  | cons a l ih =>
      by_cases hpa : p a
      · simp [List.takeWhile, hpa, ih]
      · simp [List.takeWhile, hpa]

/-- The regex tail matches right after a slash followed by a nonempty
id run and an underscore, capturing the run. -/
theorem eligibleAt_exact (cid suf : List Char) (hne : cid ≠ [])
    (hid : cid.all isIdChar = true) :
    eligibleAt (cid ++ '_' :: suf) = some cid := by
  have htw : (cid ++ '_' :: suf).takeWhile isIdChar = cid :=
    takeWhile_all_append isIdChar cid '_' suf hid (by decide)
  have hdr : (cid ++ '_' :: suf).drop cid.length = '_' :: suf := List.drop_left cid ('_' :: suf)
  simp only [eligibleAt, htw, hdr]
  rw [if_neg (by simpa using hne)]
  simp

/-- A slash opening a line with no further slash after it puts its
eligible capture in the first-line component. -/
theorem scanKeyPair_slash_head (T r : List Char) (hT : '/' ∉ T)
    (he : eligibleAt T = some r) :
    scanKeyPair ('/' :: T) = (some r, none) := by
  have h0 := scanKeyPair_no_slash T hT
  simp only [scanKeyPair, h0]
  simp [isLineTerminator, he]

/-- Prepending terminator-free characters keeps an existing first-line
capture: the added characters stay in the same line, left of the
already-rightmost eligible slash. -/
theorem scanKeyPair_extend (tail r : List Char)
    (hbase : scanKeyPair tail = (some r, none)) :
    ∀ q : List Char, (∀ c ∈ q, isLineTerminator c = false) →
      scanKeyPair (q ++ tail) = (some r, none) := by
  intro q
  induction q with
  | nil =>
      intro _
      simpa using hbase
  | cons c q ih =>
      intro hq
      have hc := hq c (List.mem_cons_self c q)
      have ihh := ih (fun x hx => hq x (List.mem_cons_of_mem c hx))
      simp only [List.cons_append, scanKeyPair, ihh]
      simp [hc, ihh]

/-- Every capture the scan produces, in either component, is a nonempty
id segment delimited by a slash on its left and an underscore on its
right. -/
theorem scanKeyPair_sound : ∀ (k r : List Char),
    ((scanKeyPair k).1 = some r ∨ (scanKeyPair k).2 = some r) →
    ∃ q s, k = q ++ '/' :: (r ++ '_' :: s) ∧ r ≠ [] ∧ r.all isIdChar = true := by
  intro k
  induction k with
  | nil =>
      intro r h
      rcases h with h | h <;> simp [scanKeyPair] at h
  | cons c rest ih =>
      intro r h
      have hprep : (∃ q s, rest = q ++ '/' :: (r ++ '_' :: s) ∧ r ≠ [] ∧
          r.all isIdChar = true) →
          ∃ q s, c :: rest = q ++ '/' :: (r ++ '_' :: s) ∧ r ≠ [] ∧
            r.all isIdChar = true := by
        rintro ⟨q, s, hk, hne2, hall⟩
        exact ⟨c :: q, s, by rw [List.cons_append, hk], hne2, hall⟩
      rcases hsp : scanKeyPair rest with ⟨p1, p2⟩
      simp only [scanKeyPair, hsp] at h
      rcases h with h | h
      · by_cases ht : isLineTerminator c
        · rw [if_pos ht] at h
          exact absurd h (by simp)
        · rw [if_neg ht] at h
          rcases p1 with _ | r'
          · have h3 : (if c = '/' then eligibleAt rest else none) = some r := h
            by_cases hc : c = '/'
            · rw [if_pos hc] at h3
              simp only [eligibleAt] at h3
              by_cases hrun : (rest.takeWhile isIdChar).isEmpty = true
              · rw [if_pos hrun] at h3
                simp at h3
              · rw [if_neg hrun] at h3
                rcases hdr : rest.drop ((rest.takeWhile isIdChar).length) with _ | ⟨c0, tail⟩
                · rw [hdr] at h3
                  simp at h3
                · rw [hdr] at h3
                  dsimp only at h3
                  by_cases hc0 : c0 = '_'
                  · rw [if_pos hc0] at h3
                    have hr : r = rest.takeWhile isIdChar := (Option.some.inj h3).symm
                    refine ⟨[], tail, ?_, ?_, ?_⟩
                    · have hsplit := takeWhile_append_drop isIdChar rest
                      rw [hdr, hc0] at hsplit
                      subst hc
                      simp only [List.nil_append, hr]
                      rw [hsplit]
                    · intro hrnil
                      rw [hr] at hrnil
                      rw [hrnil] at hrun
                      exact hrun rfl
                    · rw [hr]
                      exact all_takeWhile isIdChar rest
                  · rw [if_neg hc0] at h3
                    simp at h3
            · rw [if_neg hc] at h3
              exact absurd h3 (by simp)
          · have h3 : some r' = some r := h
            exact hprep (ih r (Or.inl (by rw [hsp]; exact h3)))
      · by_cases ht : isLineTerminator c
        · rw [if_pos ht] at h
          rcases p1 with _ | r'
          · have h3 : p2 = some r := h
            exact hprep (ih r (Or.inr (by rw [hsp]; exact h3)))
          · have h3 : some r' = some r := h
            exact hprep (ih r (Or.inl (by rw [hsp]; exact h3)))
        · rw [if_neg ht] at h
          have h3 : p2 = some r := h
          exact hprep (ih r (Or.inr (by rw [hsp]; exact h3)))

/-- C5 counterexample: for the key `"a/b_c/d_e"`, read as
prefix `"a"`, contactId `"b"`, suffix `"c/d_e"`, extraction does not
return `"b"` — the key is one line, and within a line the greedy `.*`
commits to the rightmost eligible slash, returning `"d"`. -/
theorem contactId_extraction_counterexample :
    ¬(∀ p cid suf : String, cid ≠ "" → cid.data.all isIdChar = true →
        contactIdFromObjectKey (p ++ "/" ++ cid ++ "_" ++ suf) = some cid) := by
  intro h
  have h1 := h "a" "b" "c/d_e" (by decide) (by decide)
  have h2 : contactIdFromObjectKey ("a" ++ "/" ++ "b" ++ "_" ++ "c/d_e") = some "d" := by
    decide
  rw [h2] at h1
  exact absurd h1 (by decide)

/-- C5 (amended): extraction returns exactly the contact id for every
key `prefix/contactId_suffix` whose prefix contains no line terminator
and whose suffix contains no further path separator — otherwise the
first line containing an eligible slash wins, and within it the
rightmost eligible slash; and every successful extraction comes from an
underscore-delimited id segment after a path separator, so a key
lacking one makes extraction fail. -/
theorem contactId_extraction_spec :
    (∀ p cid suf : String, cid ≠ "" → cid.data.all isIdChar = true →
        (∀ c ∈ p.data, isLineTerminator c = false) →
        '/' ∉ suf.data →
        contactIdFromObjectKey (p ++ "/" ++ cid ++ "_" ++ suf) = some cid) ∧
      ∀ (k r : List Char), scanKey k = some r →
        ∃ q s, k = q ++ '/' :: (r ++ '_' :: s) ∧ r ≠ [] ∧ r.all isIdChar = true := by
  constructor
  · intro p cid suf hne hid hp hsuf
    have hdata : (p ++ "/" ++ cid ++ "_" ++ suf).data
        = p.data ++ '/' :: (cid.data ++ '_' :: suf.data) := by
      simp [String.data_append, show ("/" : String).data = ['/'] from rfl,
        show ("_" : String).data = ['_'] from rfl]
    have hcid : cid.data ≠ [] := by
      intro hc
      exact hne (String.ext hc)
    have hnos : '/' ∉ cid.data ++ '_' :: suf.data := by
      intro hm
      rcases List.mem_append.mp hm with hm1 | hm2
      · have := List.all_eq_true.mp hid _ hm1
        simp [isIdChar] at this
      · rcases List.mem_cons.mp hm2 with hm3 | hm4
        · exact absurd hm3 (by decide)
        · exact hsuf hm4
    have he := eligibleAt_exact cid.data suf.data hcid hid
    have hsl := scanKeyPair_slash_head (cid.data ++ '_' :: suf.data) cid.data hnos he
    have hfull := scanKeyPair_extend ('/' :: (cid.data ++ '_' :: suf.data)) cid.data hsl
      p.data hp
    show (scanKey (p ++ "/" ++ cid ++ "_" ++ suf).data).map (fun l => (⟨l⟩ : String))
        = some cid
    rw [hdata]
    simp only [scanKey, hfull]
    rfl
  · intro k r h
    apply scanKeyPair_sound k r
    rcases hsp : scanKeyPair k with ⟨p1, p2⟩
    rcases p1 with _ | r'
    · right
      simpa [scanKey, hsp] using h
    · left
      simpa [scanKey, hsp] using h

/-- Witness for C5: the documented example key (terminator-free prefix,
slash-free suffix), and a concrete successful scan decomposed into its
delimited segment. -/
theorem contactId_extraction_spec_witness :
    contactIdFromObjectKey
        ("some/path" ++ "/" ++ "49ff0244-82f5-4c51-83b4-c2b0d7374f3a" ++ "_" ++
          "20180619T07:02_UTC.wav") = some "49ff0244-82f5-4c51-83b4-c2b0d7374f3a" ∧
      ∃ q s, ("calls/abc-123_x" : String).data = q ++ '/' :: (("abc-123" : String).data ++ '_' :: s) ∧
        ("abc-123" : String).data ≠ [] ∧ (("abc-123" : String).data).all isIdChar = true :=
  ⟨contactId_extraction_spec.1 "some/path" "49ff0244-82f5-4c51-83b4-c2b0d7374f3a"
      "20180619T07:02_UTC.wav" (by decide) (by decide) (by decide) (by decide),
    contactId_extraction_spec.2 ("calls/abc-123_x" : String).data
      ("abc-123" : String).data (by decide)⟩

/-! ## Publish helper lemmas -/

/-- The alert message always starts with a nonempty fixed prefix, so the
`sns.publish` empty-message guard never fires for it. -/
theorem alert_message_nonempty (e : String) : (alertPublishFor e).message ≠ "" := by
  intro h
  have hd := congrArg String.data h
  simp only [alertPublishFor, String.data_append] at hd
  have hd2 : ("Voicemail processing encountered an error:\n        " : String).data
      ++ e.data = [] := hd
  rcases List.append_eq_nil.mp hd2 with ⟨h1, _⟩
  exact absurd h1 (by decide)

/-- Publishing a nonempty message just returns the collaborator's
outcome. -/
theorem snsPublish_nonempty (outcome : Except String Unit) (p : Publish)
    (hp : p.message ≠ "") : snsPublish outcome p = outcome := by
  simp [snsPublish, hp]

/-! ## Claim C2 -/

/-- C2: when the enriched record's `voicemail` attribute is falsy,
`process` returns the success result immediately: no transcription
submission, no signed-URL issuance, and no notification publish — the
only publish attempted is the pre-pipeline agent-login signal. -/
theorem process_skips_non_voicemail (ev : S3EventRecord) (env : Env)
    (info : VoicemailInfo) (cid : String)
    (hinfo : getS3ObjectInfo ev = Except.ok info)
    (hcid : contactIdFromObjectKey info.objectKey = some cid)
    (hvm : truthy (getAttr (parseCallAttributes env.logEvents) "voicemail") = false) :
    (process ev env).result = Except.ok { success := true } ∧
      (process ev env).transcribeStarted = false ∧
      (process ev env).presignRequested = false ∧
      (process ev env).publishes = [agentLoginPublish] := by
  have hmain : mainPipeline ev env =
      { result := Except.ok { success := true }, publishes := []
        transcribeStarted := false, presignRequested := false, logs := [] } := by
    simp only [mainPipeline, hinfo, hcid, hvm]
    simp
  simp [process, hmain, errorBoundary]

/-- Witness for C2: the empty log search leaves `voicemail` undefined and
the pipeline skips. -/
theorem process_skips_non_voicemail_witness :
    (process ev0 envSkip).result = Except.ok { success := true } ∧
      (process ev0 envSkip).transcribeStarted = false ∧
      (process ev0 envSkip).presignRequested = false ∧
      (process ev0 envSkip).publishes = [agentLoginPublish] :=
  process_skips_non_voicemail ev0 envSkip info0 "abc-123" (by decide) (by decide) (by decide)

/-! ## Claim C8 -/

/-- The `try` pipeline never reads the agent-login outcome: it is
determined by the event and the other collaborator outcomes. -/
theorem mainPipeline_congr (ev : S3EventRecord) (e1 e2 : Env)
    (h1 : e1.logEvents = e2.logEvents) (h2 : e1.startJob = e2.startJob)
    (h3 : e1.oracle = e2.oracle) (h4 : e1.presign = e2.presign)
    (h5 : e1.formattedCreationDate = e2.formattedCreationDate)
    (h6 : e1.formattedExpiryDate = e2.formattedExpiryDate)
    (h7 : e1.notifyPublish = e2.notifyPublish) (h8 : e1.alertPublish = e2.alertPublish) :
    mainPipeline ev e1 = mainPipeline ev e2 := by
  cases e1
  cases e2
  dsimp only at h1 h2 h3 h4 h5 h6 h7 h8
  subst h1 h2 h3 h4 h5 h6 h7 h8
  rfl

/-- C8: a failure of the best-effort agent-availability signal is logged
and swallowed: the main pipeline proceeds and every observable of the
invocation — result, publish attempts, transcription and signing
activity — is the same as when the signal succeeds; only the swallowed
error appears in the logs. -/
theorem process_login_signal_swallowed (ev : S3EventRecord) (env : Env) (err : String) :
    (process ev { env with sendLoginEvent := Except.error err }).result =
        (process ev { env with sendLoginEvent := Except.ok () }).result ∧
      (process ev { env with sendLoginEvent := Except.error err }).publishes =
        (process ev { env with sendLoginEvent := Except.ok () }).publishes ∧
      (process ev { env with sendLoginEvent := Except.error err }).transcribeStarted =
        (process ev { env with sendLoginEvent := Except.ok () }).transcribeStarted ∧
      (process ev { env with sendLoginEvent := Except.error err }).presignRequested =
        (process ev { env with sendLoginEvent := Except.ok () }).presignRequested ∧
      (process ev { env with sendLoginEvent := Except.error err }).logs =
        err :: (process ev { env with sendLoginEvent := Except.ok () }).logs := by
  have hm : mainPipeline ev { env with sendLoginEvent := Except.error err } =
      mainPipeline ev { env with sendLoginEvent := Except.ok () } :=
    mainPipeline_congr ev _ _ rfl rfl rfl rfl rfl rfl rfl rfl
  simp [process, hm, loginAttemptLogs, snsPublish, agentLoginPublish]

/-! ## Claim C1 -/

/-- C1 counterexample: in the concrete failing run exactly one alert is
published, but its topic is `NOTIFICATION_TOPIC` — the very topic the
end-user notification of a successful run goes to — so the alert topic
is not distinct from the end-user notification topic. -/
theorem alert_topic_not_distinct_counterexample :
    (process ev0 envFail).result =
        Except.error "Error: Transcription failure: Unsupported media format" ∧
      (process ev0 envFail).publishes =
        [agentLoginPublish,
          alertPublishFor "Error: Transcription failure: Unsupported media format"] ∧
      (alertPublishFor "Error: Transcription failure: Unsupported media format").topic =
        (notificationPublishFor info0 (parseCallAttributes envBase.logEvents) (some "hello")
          "https://signed/url" envBase).topic ∧
      (process ev0 envBase).publishes =
        [agentLoginPublish,
          notificationPublishFor info0 (parseCallAttributes envBase.logEvents) (some "hello")
            "https://signed/url" envBase] :=
  ⟨rfl, rfl, rfl, rfl⟩

/-- C1 (amended): when the transcription job reports `FAILED` with a
reason, the poller raises the transcription-failure error carrying that
reason, exactly one alert is published — to the notification topic, the
same SNS topic used for end-user notifications, distinguished only by
its subject — and the original error is re-raised, so the invocation
terminates as failed. -/
theorem process_transcription_failure (ev : S3EventRecord) (env : Env)
    (info : VoicemailInfo) (cid jobName reason : String)
    (hinfo : getS3ObjectInfo ev = Except.ok info)
    (hcid : contactIdFromObjectKey info.objectKey = some cid)
    (hvm : truthy (getAttr (parseCallAttributes env.logEvents) "voicemail") = true)
    (hstart : env.startJob = Except.ok jobName)
    (hjob : env.oracle 0 = failedJob reason)
    (halert : env.alertPublish = Except.ok ()) :
    (process ev env).result = Except.error ("Error: Transcription failure: " ++ reason) ∧
      ((process ev env).publishes.filter
          (fun p => decide (p.subject = some "Voicemail processing failure"))) =
        [alertPublishFor ("Error: Transcription failure: " ++ reason)] ∧
      (alertPublishFor ("Error: Transcription failure: " ++ reason)).topic =
        Topic.notification := by
  have hne : (env.oracle 0).status ≠ TStatus.inProgress := by
    rw [hjob]; simp [failedJob]
  have hpoll : pollLoop env.oracle ((240 * 1000 - INITIAL_WAIT_MS) / 6) 6 0 none =
      (some (env.oracle 0), []) :=
    pollLoop_first_break env.oracle _ 5 0 none hne
  have hawait : (awaitJob env.oracle 240).1 =
      Except.error ("Error: Transcription failure: " ++ reason) := by
    rw [awaitJob_value]
    simp only [hpoll]
    rw [hjob]
    simp [failedJob]
  have htr : transcribeRecording env =
      Except.error ("Error: Transcription failure: " ++ reason) := by
    simp only [transcribeRecording, hstart]
    exact hawait
  have hmain : mainPipeline ev env =
      { result := Except.error ("Error: Transcription failure: " ++ reason)
        publishes := [], transcribeStarted := true, presignRequested := false, logs := [] } := by
    simp only [mainPipeline, hinfo, hcid]
    rw [if_neg (by simp [hvm])]
    simp only [htr]
  have hb : snsPublish env.alertPublish
      (alertPublishFor ("Error: Transcription failure: " ++ reason)) = Except.ok () := by
    rw [snsPublish_nonempty _ _ (alert_message_nonempty _), halert]
  simp only [process, errorBoundary, hmain]
  rw [hb]
  simp [agentLoginPublish, alertPublishFor, List.filter]

/-- Witness for C1: the concrete failing environment. -/
theorem process_transcription_failure_witness :
    (process ev0 envFail).result =
        Except.error ("Error: Transcription failure: " ++ "Unsupported media format") ∧
      ((process ev0 envFail).publishes.filter
          (fun p => decide (p.subject = some "Voicemail processing failure"))) =
        [alertPublishFor ("Error: Transcription failure: " ++ "Unsupported media format")] ∧
      (alertPublishFor ("Error: Transcription failure: " ++ "Unsupported media format")).topic =
        Topic.notification :=
  process_transcription_failure ev0 envFail info0 "abc-123"
    "abc-123_20180619T07_02_UTC_1529391720000" "Unsupported media format"
    (by decide) (by decide) (by decide) rfl rfl rfl

/-! ## Claim C7 -/

/-- C7 counterexample: with a failing stage and a failing alert publish,
the surfaced error is the alert-publish error, not the original stage
error. -/
theorem alert_failure_masking_counterexample :
    (mainPipeline ev0 envMask).result =
        Except.error "Error: Transcription failure: Unsupported media format" ∧
      (process ev0 envMask).result = Except.error "Error: SNS publish failed" ∧
      ("Error: SNS publish failed" : String) ≠
        "Error: Transcription failure: Unsupported media format" :=
  ⟨rfl, rfl, by decide⟩

/-- C7 (amended): the alert publish in the catch block is not guarded —
whenever a stage fails and the subsequent operator-alert publish itself
fails, the error surfaced to the invoking platform is the alert-publish
error, which replaces (masks) the original stage error. -/
theorem process_alert_failure_masks (ev : S3EventRecord) (env : Env) (e e2 : String)
    (hmainr : (mainPipeline ev env).result = Except.error e)
    (halert : env.alertPublish = Except.error e2) :
    (process ev env).result = Except.error e2 := by
  have hb : snsPublish env.alertPublish (alertPublishFor e) = Except.error e2 := by
    rw [snsPublish_nonempty _ _ (alert_message_nonempty _), halert]
  simp [process, errorBoundary, hmainr, hb]

/-- Witness for C7: the concrete masking environment. -/
theorem process_alert_failure_masks_witness :
    (process ev0 envMask).result = Except.error "Error: SNS publish failed" :=
  process_alert_failure_masks ev0 envMask
    "Error: Transcription failure: Unsupported media format" "Error: SNS publish failed"
    rfl rfl
